import Mathlib

/-!
Shallow embedding of the KTX v1.0 texture decoder of
`src/engine/assets/ktx_file.py` (project panic-panda).

Byte buffers are modelled as `List Nat` (one entry per byte).  Python
exceptions become the `Except KtxError` monad; each `KtxError`
constructor corresponds to exactly one raise site in the source:

* `truncatedFile`            — `IOError` at the `length < sizeof(KtxHeader)` check in `KTXFile.open`
* `invalidMagic`             — `IOError` at the magic-identity check in `KTXFile.open`
* `unsupportedPixelFormat`   — `ValueError("Uncompressed file formats ...")` in `KTXFile.header_format`
* `unknownCompressionFormat` — `ValueError("The format of this texture ...")` in `KTXFile.header_format`
* `unsupportedTextureLayout` — `NotImplementedError` in `KTXFile.__init__`
* `truncatedMipData`         — `struct.error` raised by `struct.unpack_from` in the mip loop
-/

inductive KtxError where
  | truncatedFile
  | invalidMagic
  | unsupportedPixelFormat
  | unknownCompressionFormat
  | unsupportedTextureLayout
  | truncatedMipData
  deriving DecidableEq, Repr

/-- The Vulkan format identifiers named in `GL_TO_VK_FORMATS` (module `vk`). -/
inductive VkFormat where
  | FORMAT_BC1_RGB_UNORM_BLOCK
  | FORMAT_BC1_RGB_SRGB_BLOCK
  | FORMAT_BC1_RGBA_UNORM_BLOCK
  | FORMAT_BC1_RGBA_SRGB_BLOCK
  | FORMAT_BC2_UNORM_BLOCK
  | FORMAT_BC2_SRGB_BLOCK
  | FORMAT_BC3_UNORM_BLOCK
  | FORMAT_BC3_SRGB_BLOCK
  | FORMAT_BC4_UNORM_BLOCK
  | FORMAT_BC4_SNORM_BLOCK
  | FORMAT_BC5_UNORM_BLOCK
  | FORMAT_BC5_SNORM_BLOCK
  | FORMAT_BC6H_UFLOAT_BLOCK
  | FORMAT_BC6H_SFLOAT_BLOCK
  | FORMAT_BC7_UNORM_BLOCK
  | FORMAT_BC7_SRGB_BLOCK
  deriving DecidableEq, Repr

/-- `vk.IMAGE_TYPE_1D / _2D / _3D`. -/
inductive VkImageType where
  | IMAGE_TYPE_1D
  | IMAGE_TYPE_2D
  | IMAGE_TYPE_3D
  deriving DecidableEq, Repr

/-- A value of the Python dict `GL_TO_VK_FORMATS` is either a pair
`(linear, srgb)` or a single format identifier. -/
inductive FormatEntry where
  | pair (linear srgb : VkFormat)
  | single (f : VkFormat)
  deriving DecidableEq, Repr

/-- The OPENGL to VULKAN texture format conversion table `GL_TO_VK_FORMATS`. -/
def GL_TO_VK_FORMATS (k : Nat) : Option FormatEntry :=
  if k = 0x83F0 then some (.pair .FORMAT_BC1_RGB_UNORM_BLOCK .FORMAT_BC1_RGB_SRGB_BLOCK)
  else if k = 0x83F1 then some (.pair .FORMAT_BC1_RGBA_UNORM_BLOCK .FORMAT_BC1_RGBA_SRGB_BLOCK)
  else if k = 0x83F2 then some (.pair .FORMAT_BC2_UNORM_BLOCK .FORMAT_BC2_SRGB_BLOCK)
  else if k = 0x83F3 then some (.pair .FORMAT_BC3_UNORM_BLOCK .FORMAT_BC3_SRGB_BLOCK)
  else if k = 0x8DBB then some (.single .FORMAT_BC4_UNORM_BLOCK)
  else if k = 0x8DBC then some (.single .FORMAT_BC4_SNORM_BLOCK)
  else if k = 0x8DBD then some (.single .FORMAT_BC5_UNORM_BLOCK)
  else if k = 0x8DBE then some (.single .FORMAT_BC5_SNORM_BLOCK)
  else if k = 0x8E8F then some (.single .FORMAT_BC6H_UFLOAT_BLOCK)
  else if k = 0x8E8E then some (.single .FORMAT_BC6H_SFLOAT_BLOCK)
  else if k = 0x8E8C then some (.single .FORMAT_BC7_UNORM_BLOCK)
  else if k = 0x8E8D then some (.single .FORMAT_BC7_SRGB_BLOCK)
  else none

/-- The 12-byte KTX 1.0 magic identity `Ktx10HeaderData`. -/
def Ktx10HeaderData : List Nat :=
  [0xAB, 0x4B, 0x54, 0x58, 0x20, 0x31, 0x31, 0xBB, 0x0D, 0x0A, 0x1A, 0x0A]

/-- The ctypes structure `KtxHeader` (13 numeric fields after the 12-byte id). -/
structure KtxHeader where
  id : List Nat
  endianness : Nat
  gl_type : Nat
  gl_type_size : Nat
  gl_format : Nat
  gl_internal_format : Nat
  gl_base_internal_format : Nat
  pixel_width : Nat
  pixel_height : Nat
  pixel_depth : Nat
  number_of_array_elements : Nat
  number_of_faces : Nat
  number_of_mipmap_levels : Nat
  bytes_of_key_value_data : Nat
  deriving DecidableEq, Repr

/-- `MipmapData = namedtuple('MipmapData', ('offset', 'size', 'width', 'height'))`. -/
structure MipmapData where
  offset : Nat
  size : Nat
  width : Nat
  height : Nat
  deriving DecidableEq, Repr

/-- The decoded texture object built by `KTXFile.__init__`. -/
structure KTXFile where
  file_name : String
  width : Nat
  height : Nat
  depth : Nat
  mips_level : Nat
  array_element : Nat
  faces : Nat
  target : VkImageType
  format : VkFormat
  data : List Nat
  mipmaps : List MipmapData
  deriving DecidableEq, Repr

/-- Byte `i` of a buffer (reads past the end give 0; every use is bounds-checked
before the read, matching Python). -/
def byteAt (data : List Nat) (i : Nat) : Nat := data.getD i 0

/-- A 4-byte little-endian unsigned integer at offset `off`
(the `"=I"` layout of `struct.unpack_from` on the target platform,
and the layout of each `c_uint32` field of the ctypes header). -/
def u32le (data : List Nat) (off : Nat) : Nat :=
  byteAt data off + 256 * byteAt data (off + 1) +
    65536 * byteAt data (off + 2) + 16777216 * byteAt data (off + 3)

/-- `struct.unpack_from("=I", data, off)[0]`: raises `struct.error` when fewer
than 4 bytes remain at `off`. -/
def unpack_from_u32le (data : List Nat) (off : Nat) : Except KtxError Nat :=
  if off + 4 ≤ data.length then .ok (u32le data off) else .error .truncatedMipData

/-- `bytes_to_cstruct(data, KtxHeader)`: decode the 64-byte header in fixed
field order (only called after the `length ≥ 64` check). -/
def parse_header (data : List Nat) : KtxHeader where
  id := data.take 12
  endianness := u32le data 12
  gl_type := u32le data 16
  gl_type_size := u32le data 20
  gl_format := u32le data 24
  gl_internal_format := u32le data 28
  gl_base_internal_format := u32le data 32
  pixel_width := u32le data 36
  pixel_height := u32le data 40
  pixel_depth := u32le data 44
  number_of_array_elements := u32le data 48
  number_of_faces := u32le data 52
  number_of_mipmap_levels := u32le data 56
  bytes_of_key_value_data := u32le data 60

/-- `KTXFile.header_target`: dimensionality from the raw header fields. -/
def KTXFile.header_target (header : KtxHeader) : VkImageType :=
  if header.pixel_height = 0 then .IMAGE_TYPE_1D
  else if header.pixel_depth > 0 then .IMAGE_TYPE_3D
  else .IMAGE_TYPE_2D

/-- `KTXFile.header_format`: compressed-format triplet check, table lookup,
and the linear-variant selection (`formats[0]`, the "dirty workaround"). -/
def KTXFile.header_format (header : KtxHeader) : Except KtxError VkFormat :=
  let is_compressed := header.gl_type = 0 ∧ header.gl_type_size = 1 ∧ header.gl_format = 0
  if ¬ is_compressed then .error .unsupportedPixelFormat
  else
    match GL_TO_VK_FORMATS header.gl_internal_format with
    | none => .error .unknownCompressionFormat
    | some (.single f) => .ok f
    | some (.pair linear _) => .ok linear

/-- The mip-loading loop of `KTXFile.__init__` (lines 96-108), recursing on the
remaining iteration count of `range(self.mips_level)`.  State: `data_offset`
(read cursor in the source slice), `local_offset` (write position in the
destination buffer), the current mip extents, and the two accumulators.
`data[a : a+size]` is Python slicing: it silently truncates at the end of the
buffer, so only `unpack_from` can fail here. -/
def KTXFile.mip_loop (data : List Nat) (n data_offset local_offset w h : Nat)
    (acc : List Nat) (mips : List MipmapData) :
    Except KtxError (List Nat × List MipmapData) :=
  match n with
  | 0 => .ok (acc, mips)
  | Nat.succ m =>
    match unpack_from_u32le data data_offset with
    | .error e => .error e
    | .ok mipmap_size =>
      KTXFile.mip_loop data m (data_offset + 4 + mipmap_size)
        (local_offset + mipmap_size) (w / 2) (h / 2)
        (acc ++ (data.drop (data_offset + 4)).take mipmap_size)
        (mips ++ [⟨local_offset, mipmap_size, w, h⟩])

/-- `KTXFile.__init__(fname, header, data)`.  Field order follows the source:
`header_format` is evaluated (line 86) before the texture-array / cube-map
check (line 92), so its error preempts `NotImplementedError`. -/
def KTXFile.init (fname : String) (header : KtxHeader) (data : List Nat) :
    Except KtxError KTXFile :=
  let width := header.pixel_width
  let height := max header.pixel_height 1
  let depth := max header.pixel_depth 1
  let mips_level := max header.number_of_mipmap_levels 1
  let array_element := max header.number_of_array_elements 1
  let faces := max header.number_of_faces 1
  let target := KTXFile.header_target header
  match KTXFile.header_format header with
  | .error e => .error e
  | .ok format =>
    if array_element > 1 ∨ faces > 1 then .error .unsupportedTextureLayout
    else
      match KTXFile.mip_loop data mips_level 0 0 width height [] [] with
      | .error e => .error e
      | .ok (d, mipmaps) =>
        .ok { file_name := fname, width := width, height := height, depth := depth,
              mips_level := mips_level, array_element := array_element,
              faces := faces, target := target, format := format,
              data := d, mipmaps := mipmaps }

/-- `KTXFile.open(path)` after the file has been read into `data`:
size check, magic check, then construction from the slice past the header
and the key-value block (`sizeof(KtxHeader) = 64`). -/
def KTXFile.open_file (path : String) (data : List Nat) : Except KtxError KTXFile :=
  if data.length < 64 then .error .truncatedFile
  else
    let header := parse_header data
    if header.id ≠ Ktx10HeaderData then .error .invalidMagic
    else
      KTXFile.init path header (data.drop (64 + header.bytes_of_key_value_data))

/-! ## Concrete test buffers -/

/-- Little-endian 4-byte encoding of a 32-bit value. -/
def u32bytes (v : Nat) : List Nat :=
  [v % 256, v / 256 % 256, v / 65536 % 256, v / 16777216 % 256]

/-- A 64-byte KTX header with the magic identity and the given field values. -/
def mkHeaderBytes (glType glTypeSize glFormat glInternal w h d arr faces mips kv : Nat) :
    List Nat :=
  Ktx10HeaderData ++ u32bytes 0x04030201 ++ u32bytes glType ++ u32bytes glTypeSize ++
    u32bytes glFormat ++ u32bytes glInternal ++ u32bytes 0 ++ u32bytes w ++
    u32bytes h ++ u32bytes d ++ u32bytes arr ++ u32bytes faces ++
    u32bytes mips ++ u32bytes kv

/-- The valid two-mip scenario buffer of spec section 8: BC4 unorm, 4x4,
2 mip levels, payloads of 8 and 4 bytes. -/
def scenario_buf : List Nat :=
  mkHeaderBytes 0 1 0 0x8DBB 4 4 0 0 1 2 0 ++
    u32bytes 8 ++ [1, 2, 3, 4, 5, 6, 7, 8] ++ u32bytes 4 ++ [9, 10, 11, 12]

/-! ## Proof-side characterization of the mip loop

`mip_positions data pos i` is the read-cursor position of the `i`-th length
word when the loop starts reading at `pos`.  `has_overrun` holds when some
length word of the first `n` iterations would read past the end of the buffer
(the condition under which `struct.unpack_from` raises); `prefixes_ok` is its
negation, and `payloads_ok` additionally demands that every declared payload
lie fully inside the buffer. -/

def mip_positions (data : List Nat) (pos : Nat) : Nat → Nat
  | 0 => pos
  | Nat.succ i => mip_positions data (pos + 4 + u32le data pos) i

def has_overrun (data : List Nat) (pos : Nat) : Nat → Bool
  | 0 => false
  | Nat.succ n =>
      decide (data.length < pos + 4) ||
        has_overrun data (pos + 4 + u32le data pos) n

def prefixes_ok (data : List Nat) (pos : Nat) : Nat → Bool
  | 0 => true
  | Nat.succ n =>
      decide (pos + 4 ≤ data.length) &&
        prefixes_ok data (pos + 4 + u32le data pos) n

def payloads_ok (data : List Nat) (pos : Nat) : Nat → Bool
  | 0 => true
  | Nat.succ n =>
      decide (pos + 4 + u32le data pos ≤ data.length) &&
        payloads_ok data (pos + 4 + u32le data pos) n

/-- The list of the `n` declared mip sizes starting at cursor `pos`. -/
def mip_sizes (data : List Nat) (pos : Nat) : Nat → List Nat
  | 0 => []
  | Nat.succ n => u32le data pos :: mip_sizes data (pos + 4 + u32le data pos) n

/-- The bytes the loop copies into the destination buffer. -/
def mip_bytes (data : List Nat) (pos : Nat) : Nat → List Nat
  | 0 => []
  | Nat.succ n =>
      (data.drop (pos + 4)).take (u32le data pos) ++
        mip_bytes data (pos + 4 + u32le data pos) n

/-- The `MipmapData` records built from a size list, starting at write offset
`lo` with extents `w × h`. -/
def build_mips (lo w h : Nat) : List Nat → List MipmapData
  | [] => []
  | s :: rest => ⟨lo, s, w, h⟩ :: build_mips (lo + s) (w / 2) (h / 2) rest

/-! ## Concrete test data used by the counterexamples and witnesses -/

/-- A file whose single mip level declares 8 payload bytes while only 6 remain:
the decode SUCCEEDS (Python slicing truncates silently), the recorded size is
8, the data buffer holds the 6 available bytes. -/
def c1_cex_buf : List Nat :=
  mkHeaderBytes 0 1 0 0x8DBB 4 4 0 0 1 1 0 ++ u32bytes 8 ++ [1, 2, 3, 4, 5, 6]

/-- The section-8 scenario buffer truncated so that only 6 of the 8 promised
payload bytes of level 0 are present (2 mip levels are declared). -/
def c1_wit_buf : List Nat :=
  mkHeaderBytes 0 1 0 0x8DBB 4 4 0 0 1 2 0 ++ u32bytes 8 ++ [1, 2, 3, 4, 5, 6]

/-- A header declaring 2 array elements together with an uncompressed pixel
format: `header_format` (evaluated first, source line 86) raises before the
texture-layout check (line 92) is reached. -/
def c2_cex_header : KtxHeader where
  id := Ktx10HeaderData
  endianness := 0x04030201
  gl_type := 1
  gl_type_size := 1
  gl_format := 0
  gl_internal_format := 0x83F0
  gl_base_internal_format := 0
  pixel_width := 4
  pixel_height := 4
  pixel_depth := 0
  number_of_array_elements := 2
  number_of_faces := 1
  number_of_mipmap_levels := 1
  bytes_of_key_value_data := 0

/-- A compressed BC1 header with 2 array elements, used to instantiate C2. -/
def c2_wit_header : KtxHeader where
  id := Ktx10HeaderData
  endianness := 0x04030201
  gl_type := 0
  gl_type_size := 1
  gl_format := 0
  gl_internal_format := 0x83F0
  gl_base_internal_format := 0
  pixel_width := 4
  pixel_height := 4
  pixel_depth := 0
  number_of_array_elements := 2
  number_of_faces := 1
  number_of_mipmap_levels := 1
  bytes_of_key_value_data := 0

/-- A 12-byte all-zero buffer: its first 12 bytes differ from the magic, yet
the decode fails with `truncatedFile` (the size check runs first), not with
`invalidMagic`. -/
def c3_cex_buf : List Nat := [0, 0, 0, 0, 0, 0, 0, 0, 0, 0, 0, 0]

/-- A 64-byte all-zero buffer. -/
def c3_wit_buf : List Nat := List.replicate 64 0

/-- A single-mip BC1 file declaring 8 payload bytes of which only 6 are
present: it decodes successfully, with a recorded size sum of 8 but a data
buffer of only 6 bytes. -/
def c4_cex_buf : List Nat :=
  mkHeaderBytes 0 1 0 0x83F0 8 8 0 0 0 1 0 ++ u32bytes 8 ++ [9, 9, 9, 9, 9, 9]

def c4_cex_tex : KTXFile where
  file_name := "bc1.ktx"
  width := 8
  height := 8
  depth := 1
  mips_level := 1
  array_element := 1
  faces := 1
  target := .IMAGE_TYPE_2D
  format := .FORMAT_BC1_RGB_UNORM_BLOCK
  data := [9, 9, 9, 9, 9, 9]
  mipmaps := [⟨0, 8, 8, 8⟩]

def scenario_tex : KTXFile where
  file_name := "s.ktx"
  width := 4
  height := 4
  depth := 1
  mips_level := 2
  array_element := 1
  faces := 1
  target := .IMAGE_TYPE_2D
  format := .FORMAT_BC4_UNORM_BLOCK
  data := [1, 2, 3, 4, 5, 6, 7, 8, 9, 10, 11, 12]
  mipmaps := [⟨0, 8, 4, 4⟩, ⟨8, 4, 2, 2⟩]

/-- A BC1-RGBA file whose header declares `pixelWidth = 0` (height 4). -/
def c10_buf : List Nat :=
  mkHeaderBytes 0 1 0 0x83F1 0 4 0 0 1 1 0 ++ u32bytes 4 ++ [1, 2, 3, 4]

def c10_tex : KTXFile where
  file_name := "z.ktx"
  width := 0
  height := 4
  depth := 1
  mips_level := 1
  array_element := 1
  faces := 1
  target := .IMAGE_TYPE_2D
  format := .FORMAT_BC1_RGBA_UNORM_BLOCK
  data := [1, 2, 3, 4]
  mipmaps := [⟨0, 4, 0, 4⟩]

/-- Raw height 0 with positive depth: classified 1D from the raw fields. -/
def c7_hdr1 : KtxHeader :=
  ⟨Ktx10HeaderData, 0x04030201, 0, 1, 0, 0x8DBB, 0, 4, 0, 7, 0, 1, 1, 0⟩

def c7_hdr3 : KtxHeader :=
  ⟨Ktx10HeaderData, 0x04030201, 0, 1, 0, 0x8DBB, 0, 4, 4, 2, 0, 1, 1, 0⟩

def c7_hdr2 : KtxHeader :=
  ⟨Ktx10HeaderData, 0x04030201, 0, 1, 0, 0x8DBB, 0, 4, 4, 0, 0, 1, 1, 0⟩

def c8_hdr : KtxHeader :=
  ⟨Ktx10HeaderData, 0x04030201, 0, 1, 0, 0x83F0, 0, 16, 16, 0, 0, 1, 1, 0⟩

/-- Two buffers identical except in the single byte of their key-value block
(`bytesOfKeyValueData = 1`). -/
def c9_buf1 : List Nat :=
  mkHeaderBytes 0 1 0 0x8DBB 4 4 0 0 1 1 1 ++ [7] ++ u32bytes 4 ++ [1, 2, 3, 4]

def c9_buf2 : List Nat :=
  mkHeaderBytes 0 1 0 0x8DBB 4 4 0 0 1 1 1 ++ [9] ++ u32bytes 4 ++ [1, 2, 3, 4]

/-- When some length-word read of the first `n` iterations is out of bounds,
the loop fails with `truncatedMipData`. -/
theorem mip_loop_overrun (data : List Nat) :
    ∀ n pos lo w h acc ms, has_overrun data pos n = true →
      KTXFile.mip_loop data n pos lo w h acc ms = .error .truncatedMipData := by
  intro n
  induction n with
  | zero => intro pos lo w h acc ms hov; simp [has_overrun] at hov
  | succ m ih =>
    intro pos lo w h acc ms hov
    rw [has_overrun, Bool.or_eq_true] at hov
    by_cases hle : pos + 4 ≤ data.length
    · have hov' : has_overrun data (pos + 4 + u32le data pos) m = true := by
        rcases hov with hov | hov
        · exact absurd (of_decide_eq_true hov) (by omega)
        · exact hov
      rw [KTXFile.mip_loop, unpack_from_u32le, if_pos hle]
      exact ih _ _ _ _ _ _ hov'
    · rw [KTXFile.mip_loop, unpack_from_u32le, if_neg hle]

/-- When every length-word read is in bounds, the loop succeeds and returns
exactly the accumulators extended with `mip_bytes` and `build_mips` applied to
the declared sizes. -/
theorem mip_loop_ok (data : List Nat) :
    ∀ n pos lo w h acc ms, prefixes_ok data pos n = true →
      KTXFile.mip_loop data n pos lo w h acc ms =
        .ok (acc ++ mip_bytes data pos n,
             ms ++ build_mips lo w h (mip_sizes data pos n)) := by
  intro n
  induction n with
  | zero => intro pos lo w h acc ms _; simp [KTXFile.mip_loop, mip_bytes, mip_sizes, build_mips]
  | succ m ih =>
    intro pos lo w h acc ms hok
    rw [prefixes_ok, Bool.and_eq_true] at hok
    have hle : pos + 4 ≤ data.length := of_decide_eq_true hok.1
    rw [KTXFile.mip_loop, unpack_from_u32le, if_pos hle]
    dsimp only
    rw [ih _ _ _ _ _ _ hok.2]
    simp [mip_bytes, mip_sizes, build_mips, List.append_assoc]

/-- Conversely, a successful loop run means every length-word read was in
bounds. -/
theorem mip_loop_ok_prefixes (data : List Nat) :
    ∀ n pos lo w h acc ms r, KTXFile.mip_loop data n pos lo w h acc ms = .ok r →
      prefixes_ok data pos n = true := by
  intro n
  induction n with
  | zero => intro pos lo w h acc ms r _; rfl
  | succ m ih =>
    intro pos lo w h acc ms r hok
    rw [KTXFile.mip_loop, unpack_from_u32le] at hok
    by_cases hle : pos + 4 ≤ data.length
    · rw [if_pos hle] at hok
      rw [prefixes_ok, Bool.and_eq_true]
      exact ⟨decide_eq_true hle, ih _ _ _ _ _ _ _ hok⟩
    · rw [if_neg hle] at hok; exact absurd hok (by simp)

theorem build_mips_length (xs : List Nat) :
    ∀ lo w h, (build_mips lo w h xs).length = xs.length := by
  induction xs with
  | nil => intro lo w h; rfl
  | cons s rest ih => intro lo w h; simp [build_mips, ih]

theorem mip_sizes_length (data : List Nat) :
    ∀ n pos, (mip_sizes data pos n).length = n := by
  intro n
  induction n with
  | zero => intro pos; rfl
  | succ m ih => intro pos; simp [mip_sizes, ih]

/-- Entry `i` of `build_mips lo w h xs`: offset is `lo` plus the sum of the
sizes before it, size is `xs` at `i`, and the extents have been halved
`i` times. -/
theorem build_mips_get (xs : List Nat) :
    ∀ lo w h i (hi : i < (build_mips lo w h xs).length) (hx : i < xs.length),
      (build_mips lo w h xs).get ⟨i, hi⟩ =
        ⟨lo + (xs.take i).sum, xs.get ⟨i, hx⟩, w / 2 ^ i, h / 2 ^ i⟩ := by
  induction xs with
  | nil => intro lo w h i hi hx; simp at hx
  | cons s rest ih =>
    intro lo w h i hi hx
    cases i with
    | zero => simp [build_mips]
    | succ j =>
      have hj : j < (build_mips (lo + s) (w / 2) (h / 2) rest).length := by
        rw [build_mips_length]; exact Nat.lt_of_succ_lt_succ hx
      have hx' : j < rest.length := Nat.lt_of_succ_lt_succ hx
      have : (build_mips lo w h (s :: rest)).get ⟨j + 1, hi⟩ =
          (build_mips (lo + s) (w / 2) (h / 2) rest).get ⟨j, hj⟩ := by
        simp [build_mips]
      rw [this, ih _ _ _ _ hj hx']
      have hw : w / 2 / 2 ^ j = w / 2 ^ (j + 1) := by
        rw [Nat.div_div_eq_div_mul, pow_succ, Nat.mul_comm]
      have hh : h / 2 / 2 ^ j = h / 2 ^ (j + 1) := by
        rw [Nat.div_div_eq_div_mul, pow_succ, Nat.mul_comm]
      simp [hw, hh, Nat.add_assoc]

theorem build_mips_map_size (xs : List Nat) :
    ∀ lo w h, (build_mips lo w h xs).map MipmapData.size = xs := by
  induction xs with
  | nil => intro lo w h; rfl
  | cons s rest ih => intro lo w h; simp [build_mips, ih]

theorem payloads_ok_prefixes (data : List Nat) :
    ∀ n pos, payloads_ok data pos n = true → prefixes_ok data pos n = true := by
  intro n
  induction n with
  | zero => intro pos _; rfl
  | succ m ih =>
    intro pos h
    rw [payloads_ok, Bool.and_eq_true] at h
    have h1 := of_decide_eq_true h.1
    rw [prefixes_ok, Bool.and_eq_true]
    exact ⟨decide_eq_true (by omega), ih _ h.2⟩

/-- When every declared payload lies inside the buffer, the copied bytes have
exactly the declared total size. -/
theorem mip_bytes_length (data : List Nat) :
    ∀ n pos, payloads_ok data pos n = true →
      (mip_bytes data pos n).length = (mip_sizes data pos n).sum := by
  intro n
  induction n with
  | zero => intro pos _; rfl
  | succ m ih =>
    intro pos h
    rw [payloads_ok, Bool.and_eq_true] at h
    have h1 := of_decide_eq_true h.1
    rw [mip_bytes, mip_sizes]
    simp only [List.length_append, List.length_take, List.length_drop, List.sum_cons]
    rw [ih _ h.2]
    omega

/-- Inversion of a successful decode: every field of the resulting texture in
terms of the parsed header and the characterization functions, plus the fact
that every length-word read was in bounds. -/
theorem open_file_ok_inv (path : String) (data : List Nat) (tex : KTXFile)
    (hok : KTXFile.open_file path data = .ok tex) :
    prefixes_ok (data.drop (64 + (parse_header data).bytes_of_key_value_data)) 0
        (max (parse_header data).number_of_mipmap_levels 1) = true ∧
    KTXFile.header_format (parse_header data) = .ok tex.format ∧
    tex.file_name = path ∧
    tex.width = (parse_header data).pixel_width ∧
    tex.height = max (parse_header data).pixel_height 1 ∧
    tex.depth = max (parse_header data).pixel_depth 1 ∧
    tex.mips_level = max (parse_header data).number_of_mipmap_levels 1 ∧
    tex.array_element = max (parse_header data).number_of_array_elements 1 ∧
    tex.faces = max (parse_header data).number_of_faces 1 ∧
    tex.target = KTXFile.header_target (parse_header data) ∧
    tex.data = mip_bytes (data.drop (64 + (parse_header data).bytes_of_key_value_data)) 0
        (max (parse_header data).number_of_mipmap_levels 1) ∧
    tex.mipmaps = build_mips 0 (parse_header data).pixel_width
        (max (parse_header data).pixel_height 1)
        (mip_sizes (data.drop (64 + (parse_header data).bytes_of_key_value_data)) 0
          (max (parse_header data).number_of_mipmap_levels 1)) := by
  rw [KTXFile.open_file] at hok
  by_cases h1 : data.length < 64
  · rw [if_pos h1] at hok; cases hok
  rw [if_neg h1] at hok
  by_cases h2 : (parse_header data).id ≠ Ktx10HeaderData
  · rw [if_pos h2] at hok; cases hok
  rw [if_neg h2] at hok
  rw [KTXFile.init] at hok
  cases hfmt : KTXFile.header_format (parse_header data) with
  | error e => rw [hfmt] at hok; cases hok
  | ok fmt =>
    rw [hfmt] at hok
    dsimp only at hok
    by_cases h3 : max (parse_header data).number_of_array_elements 1 > 1 ∨
        max (parse_header data).number_of_faces 1 > 1
    · rw [if_pos h3] at hok; cases hok
    rw [if_neg h3] at hok
    cases hloop : KTXFile.mip_loop
        (data.drop (64 + (parse_header data).bytes_of_key_value_data))
        (max (parse_header data).number_of_mipmap_levels 1) 0 0
        (parse_header data).pixel_width (max (parse_header data).pixel_height 1)
        [] [] with
    | error e => rw [hloop] at hok; cases hok
    | ok r =>
      obtain ⟨d, t⟩ := r
      rw [hloop] at hok
      dsimp only at hok
      have hpre := mip_loop_ok_prefixes _ _ _ _ _ _ _ _ _ hloop
      have hchar := mip_loop_ok
        (data.drop (64 + (parse_header data).bytes_of_key_value_data))
        (max (parse_header data).number_of_mipmap_levels 1) 0 0
        (parse_header data).pixel_width (max (parse_header data).pixel_height 1)
        [] [] hpre
      rw [hloop] at hchar
      simp only [List.nil_append, Except.ok.injEq, Prod.mk.injEq] at hchar
      obtain ⟨hd, ht⟩ := hchar
      cases hok
      subst hd ht
      exact ⟨hpre, rfl, rfl, rfl, rfl, rfl, rfl, rfl, rfl, rfl, rfl, rfl⟩

/-! ## Claim C1 -/

/-- C1 counterexample: the declared payload size (8) exceeds the remaining
source bytes (6 after the length word), yet the decode returns a texture
instead of failing with `truncatedMipData`. -/
theorem short_payload_decodes_ok :
    u32le (c1_cex_buf.drop 64) 0 = 8 ∧ (c1_cex_buf.drop 64).length = 10 ∧
    KTXFile.open_file "bc4.ktx" c1_cex_buf =
      .ok { file_name := "bc4.ktx", width := 4, height := 4, depth := 1,
            mips_level := 1, array_element := 1, faces := 1,
            target := .IMAGE_TYPE_2D, format := .FORMAT_BC4_UNORM_BLOCK,
            data := [1, 2, 3, 4, 5, 6], mipmaps := [⟨0, 8, 4, 4⟩] } :=
  ⟨rfl, rfl, rfl⟩

/-- C1 (amended): if at some mip iteration the 4-byte length word would read
past the end of the source slice, the decode fails with `truncatedMipData` and
no texture is produced.  (A declared payload size exceeding the remaining
bytes does not by itself cause a failure: the copy silently truncates.) -/
theorem prefix_overrun_truncated_mip (path : String) (data : List Nat)
    (h1 : ¬ data.length < 64)
    (h2 : (parse_header data).id = Ktx10HeaderData)
    (hfmt : ∃ fmt, KTXFile.header_format (parse_header data) = .ok fmt)
    (hlay : ¬ (max (parse_header data).number_of_array_elements 1 > 1 ∨
               max (parse_header data).number_of_faces 1 > 1))
    (hov : has_overrun (data.drop (64 + (parse_header data).bytes_of_key_value_data)) 0
            (max (parse_header data).number_of_mipmap_levels 1) = true) :
    KTXFile.open_file path data = .error .truncatedMipData := by
  obtain ⟨fmt, hfmt⟩ := hfmt
  rw [KTXFile.open_file, if_neg h1, if_neg (not_not_intro h2)]
  rw [KTXFile.init, hfmt]
  dsimp only
  rw [if_neg hlay]
  rw [mip_loop_overrun _ _ _ _ _ _ _ _ hov]

theorem prefix_overrun_truncated_mip_witness :
    KTXFile.open_file "s.ktx" c1_wit_buf = .error .truncatedMipData :=
  prefix_overrun_truncated_mip "s.ktx" c1_wit_buf (by decide) (by decide)
    ⟨.FORMAT_BC4_UNORM_BLOCK, rfl⟩ (by decide) (by decide)

/-! ## Claim C2 -/

/-- C2 counterexample: with `numberOfArrayElements = 2` but `glType = 1`, the
decode fails with `unsupportedPixelFormat`, not `unsupportedTextureLayout`. -/
theorem array_elems_bad_format_cex :
    c2_cex_header.number_of_array_elements = 2 ∧
    KTXFile.init "a.ktx" c2_cex_header [] = .error .unsupportedPixelFormat :=
  ⟨rfl, rfl⟩

/-- C2 (amended): a header with `numberOfArrayElements = 2` or
`numberOfFaces = 2` always fails to decode, and it fails with
`unsupportedTextureLayout` whenever the format resolution succeeds; when the
format checks fail, that error (raised first in the source) is reported
instead. -/
theorem texture_array_rejected (fname : String) (header : KtxHeader)
    (data : List Nat)
    (h : header.number_of_array_elements = 2 ∨ header.number_of_faces = 2) :
    (∃ e, KTXFile.init fname header data = .error e) ∧
    (∀ fmt, KTXFile.header_format header = .ok fmt →
      KTXFile.init fname header data = .error .unsupportedTextureLayout) := by
  have hlay : max header.number_of_array_elements 1 > 1 ∨
      max header.number_of_faces 1 > 1 := by
    rcases h with h | h <;> rw [h] <;> [left; right] <;> decide
  cases hfmt : KTXFile.header_format header with
  | error e =>
    have hinit : KTXFile.init fname header data = .error e := by
      rw [KTXFile.init, hfmt]
    refine ⟨⟨e, hinit⟩, ?_⟩
    intro fmt hf
    cases hf
  | ok fmt =>
    have hinit : KTXFile.init fname header data = .error .unsupportedTextureLayout := by
      rw [KTXFile.init, hfmt]
      dsimp only
      rw [if_pos hlay]
    exact ⟨⟨_, hinit⟩, fun _ _ => hinit⟩

theorem texture_array_rejected_witness :
    KTXFile.init "a.ktx" c2_wit_header [] = .error .unsupportedTextureLayout :=
  (texture_array_rejected "a.ktx" c2_wit_header [] (Or.inl rfl)).2
    .FORMAT_BC1_RGB_UNORM_BLOCK rfl

/-! ## Claim C3 -/

theorem bad_magic_short_buffer_cex :
    c3_cex_buf.take 12 ≠ Ktx10HeaderData ∧
    KTXFile.open_file "m.ktx" c3_cex_buf = .error .truncatedFile :=
  ⟨by decide, rfl⟩

/-- C3 (amended): for every buffer of length at least 64 whose first 12 bytes
differ from the magic constant, the decode fails with `invalidMagic`,
regardless of the rest of the content; shorter buffers fail with
`truncatedFile` first. -/
theorem bad_magic_invalid_magic (path : String) (data : List Nat)
    (hlen : 64 ≤ data.length)
    (hmagic : (parse_header data).id ≠ Ktx10HeaderData) :
    KTXFile.open_file path data = .error .invalidMagic := by
  rw [KTXFile.open_file, if_neg (by omega), if_pos hmagic]

theorem bad_magic_invalid_magic_witness :
    KTXFile.open_file "m.ktx" c3_wit_buf = .error .invalidMagic :=
  bad_magic_invalid_magic "m.ktx" c3_wit_buf (by decide) (by decide)

/-! ## Claims C4, C5, C6, C10 -/

/-- Offsets in a built mip list are the prefix sums of the sizes. -/
theorem build_mips_offsets (xs : List Nat) (w h : Nat) (i : Nat) (a : MipmapData)
    (ha : (build_mips 0 w h xs)[i]? = some a) :
    a.offset = (((build_mips 0 w h xs).take i).map MipmapData.size).sum := by
  rw [List.getElem?_eq_some] at ha
  obtain ⟨hlt, hget⟩ := ha
  have hx : i < xs.length := by rw [← build_mips_length xs 0 w h]; exact hlt
  have hg := build_mips_get xs 0 w h i hlt hx
  rw [List.get_eq_getElem] at hg
  rw [hget] at hg
  rw [hg, List.map_take, build_mips_map_size]
  simp

/-- Consecutive entries of a built mip list halve their extents. -/
theorem build_mips_halving (xs : List Nat) (lo w h : Nat) (i : Nat)
    (a b : MipmapData)
    (ha : (build_mips lo w h xs)[i]? = some a)
    (hb : (build_mips lo w h xs)[i + 1]? = some b) :
    b.width = a.width / 2 ∧ b.height = a.height / 2 := by
  rw [List.getElem?_eq_some] at ha hb
  obtain ⟨hlt1, hget1⟩ := ha
  obtain ⟨hlt2, hget2⟩ := hb
  have hx1 : i < xs.length := by rw [← build_mips_length xs lo w h]; exact hlt1
  have hx2 : i + 1 < xs.length := by rw [← build_mips_length xs lo w h]; exact hlt2
  have hg1 := build_mips_get xs lo w h i hlt1 hx1
  have hg2 := build_mips_get xs lo w h (i + 1) hlt2 hx2
  rw [List.get_eq_getElem] at hg1 hg2
  rw [hget1] at hg1
  rw [hget2] at hg2
  rw [hg1, hg2]
  constructor
  · show w / 2 ^ (i + 1) = w / 2 ^ i / 2
    rw [Nat.div_div_eq_div_mul, pow_succ]
  · show h / 2 ^ (i + 1) = h / 2 ^ i / 2
    rw [Nat.div_div_eq_div_mul, pow_succ]

/-- C4 counterexample: a successful decode whose recorded sizes sum to 8
while the produced data buffer has length 6. -/
theorem size_sum_mismatch_cex :
    KTXFile.open_file "bc1.ktx" c4_cex_buf = .ok c4_cex_tex ∧
    (c4_cex_tex.mipmaps.map MipmapData.size).sum ≠ c4_cex_tex.data.length :=
  ⟨rfl, by decide⟩

/-- C4 (amended): for every successful decode, `MipLevel[i].offset` equals the
sum of the sizes of all levels before it; and the sum of all sizes equals the
length of the produced data buffer provided every declared payload lies fully
inside the source slice (when the last payload is truncated the data buffer is
shorter than the sum of the declared sizes). -/
theorem mip_packing_contiguous (path : String) (data : List Nat) (tex : KTXFile)
    (hok : KTXFile.open_file path data = .ok tex) :
    (∀ i a, tex.mipmaps[i]? = some a →
        a.offset = ((tex.mipmaps.take i).map MipmapData.size).sum) ∧
    (payloads_ok (data.drop (64 + (parse_header data).bytes_of_key_value_data)) 0
        (max (parse_header data).number_of_mipmap_levels 1) = true →
      (tex.mipmaps.map MipmapData.size).sum = tex.data.length) := by
  obtain ⟨hpre, _, _, _, _, _, _, _, _, _, hdata, hmips⟩ :=
    open_file_ok_inv path data tex hok
  constructor
  · intro i a ha
    rw [hmips] at ha ⊢
    exact build_mips_offsets _ _ _ _ _ ha
  · intro hpay
    rw [hmips, hdata, build_mips_map_size, mip_bytes_length _ _ _ hpay]

theorem mip_packing_contiguous_witness :
    (MipmapData.mk 8 4 2 2).offset =
      ((scenario_tex.mipmaps.take 1).map MipmapData.size).sum ∧
    (scenario_tex.mipmaps.map MipmapData.size).sum = scenario_tex.data.length :=
  ⟨(mip_packing_contiguous "s.ktx" scenario_buf scenario_tex rfl).1 1 ⟨8, 4, 2, 2⟩
      (by decide),
   (mip_packing_contiguous "s.ktx" scenario_buf scenario_tex rfl).2 (by decide)⟩

/-- C5: for every successful decode, the mip count is
`max(header.numberOfMipmapLevels, 1)` and the mip list has exactly that many
entries (built in ascending level order, level 0 first). -/
theorem mip_count_correct (path : String) (data : List Nat) (tex : KTXFile)
    (hok : KTXFile.open_file path data = .ok tex) :
    tex.mips_level = max (parse_header data).number_of_mipmap_levels 1 ∧
    tex.mipmaps.length = tex.mips_level := by
  obtain ⟨_, _, _, _, _, _, hml, _, _, _, _, hmips⟩ :=
    open_file_ok_inv path data tex hok
  refine ⟨hml, ?_⟩
  rw [hmips, build_mips_length, mip_sizes_length, hml]

theorem mip_count_correct_witness :
    scenario_tex.mips_level = max (parse_header scenario_buf).number_of_mipmap_levels 1 ∧
    scenario_tex.mipmaps.length = scenario_tex.mips_level :=
  mip_count_correct "s.ktx" scenario_buf scenario_tex rfl

/-- C6: for every successful decode, each mip level's extents are the floor
halves of the previous level's extents (no minimum-1 clamp between levels). -/
theorem mip_extent_halving (path : String) (data : List Nat) (tex : KTXFile)
    (hok : KTXFile.open_file path data = .ok tex) (i : Nat) (a b : MipmapData)
    (ha : tex.mipmaps[i]? = some a) (hb : tex.mipmaps[i + 1]? = some b) :
    b.width = a.width / 2 ∧ b.height = a.height / 2 := by
  obtain ⟨_, _, _, _, _, _, _, _, _, _, _, hmips⟩ :=
    open_file_ok_inv path data tex hok
  rw [hmips] at ha hb
  exact build_mips_halving _ _ _ _ _ _ _ ha hb

theorem mip_extent_halving_witness :
    (MipmapData.mk 8 4 2 2).width = (MipmapData.mk 0 8 4 4).width / 2 ∧
    (MipmapData.mk 8 4 2 2).height = (MipmapData.mk 0 8 4 4).height / 2 :=
  mip_extent_halving "s.ktx" scenario_buf scenario_tex rfl 0
    ⟨0, 8, 4, 4⟩ ⟨8, 4, 2, 2⟩ (by decide) (by decide)

/-- C10: the texture width is the raw `pixelWidth` with no minimum-1 clamp
(unlike height and depth, clamped to 1), and a zero `pixelWidth` propagates a
zero width into every recorded mip level. -/
theorem width_unclamped (path : String) (data : List Nat) (tex : KTXFile)
    (hok : KTXFile.open_file path data = .ok tex) :
    tex.width = (parse_header data).pixel_width ∧
    tex.height = max (parse_header data).pixel_height 1 ∧
    tex.depth = max (parse_header data).pixel_depth 1 ∧
    ((parse_header data).pixel_width = 0 →
      ∀ (i : Nat) (a : MipmapData), tex.mipmaps[i]? = some a → a.width = 0) := by
  obtain ⟨_, _, _, hw, hh, hd, _, _, _, _, _, hmips⟩ :=
    open_file_ok_inv path data tex hok
  refine ⟨hw, hh, hd, ?_⟩
  intro h0 i a ha
  rw [hmips, h0] at ha
  rw [List.getElem?_eq_some] at ha
  obtain ⟨hlt, hget⟩ := ha
  have hx : i < (mip_sizes
      (data.drop (64 + (parse_header data).bytes_of_key_value_data)) 0
      (max (parse_header data).number_of_mipmap_levels 1)).length := by
    rw [← build_mips_length _ 0 0 (max (parse_header data).pixel_height 1)]
    exact hlt
  have hg := build_mips_get _ 0 0 (max (parse_header data).pixel_height 1) i hlt hx
  rw [List.get_eq_getElem] at hg
  rw [hget] at hg
  rw [hg]
  exact Nat.zero_div _

theorem width_unclamped_witness :
    c10_tex.width = (parse_header c10_buf).pixel_width ∧
    (MipmapData.mk 0 4 0 4).width = 0 :=
  ⟨(width_unclamped "z.ktx" c10_buf c10_tex rfl).1,
   (width_unclamped "z.ktx" c10_buf c10_tex rfl).2.2.2 (by decide) 0
     ⟨0, 4, 0, 4⟩ (by decide)⟩

/-! ## Claim C7 -/

/-- C7: the dimensionality classification reads the raw (unclamped) header
fields: zero raw height gives 1D (even when depth is positive), otherwise a
positive raw depth gives 3D, otherwise 2D. -/
theorem target_classification (header : KtxHeader) :
    (header.pixel_height = 0 →
      KTXFile.header_target header = .IMAGE_TYPE_1D) ∧
    (header.pixel_height ≠ 0 → 0 < header.pixel_depth →
      KTXFile.header_target header = .IMAGE_TYPE_3D) ∧
    (header.pixel_height ≠ 0 → header.pixel_depth = 0 →
      KTXFile.header_target header = .IMAGE_TYPE_2D) := by
  refine ⟨?_, ?_, ?_⟩
  · intro h; rw [KTXFile.header_target, if_pos h]
  · intro h hd; rw [KTXFile.header_target, if_neg h, if_pos hd]
  · intro h hd; rw [KTXFile.header_target, if_neg h, if_neg (by omega)]

theorem target_classification_witness :
    KTXFile.header_target c7_hdr1 = .IMAGE_TYPE_1D ∧
    KTXFile.header_target c7_hdr3 = .IMAGE_TYPE_3D ∧
    KTXFile.header_target c7_hdr2 = .IMAGE_TYPE_2D :=
  ⟨(target_classification c7_hdr1).1 rfl,
   (target_classification c7_hdr3).2.1 (by decide) (by decide),
   (target_classification c7_hdr2).2.2 (by decide) rfl⟩

/-! ## Claim C8 -/

/-- C8: for every header passing the compressed-format triplet check whose
internal format maps to a (linear, sRGB) pair in the table, the resolver
returns the linear (first) variant; in particular `0x83F0` resolves to
`FORMAT_BC1_RGB_UNORM_BLOCK`, never the sRGB variant. -/
theorem linear_variant_selected (header : KtxHeader)
    (hc : header.gl_type = 0 ∧ header.gl_type_size = 1 ∧ header.gl_format = 0)
    (linear srgb : VkFormat)
    (hp : GL_TO_VK_FORMATS header.gl_internal_format = some (.pair linear srgb)) :
    KTXFile.header_format header = .ok linear ∧
    (header.gl_internal_format = 0x83F0 →
      KTXFile.header_format header = .ok .FORMAT_BC1_RGB_UNORM_BLOCK) := by
  have hmain : KTXFile.header_format header = .ok linear := by
    rw [KTXFile.header_format]
    rw [if_neg (not_not_intro hc), hp]
  refine ⟨hmain, ?_⟩
  intro h83
  rw [h83] at hp
  have h := hp
  rw [show GL_TO_VK_FORMATS 0x83F0 =
      some (.pair .FORMAT_BC1_RGB_UNORM_BLOCK .FORMAT_BC1_RGB_SRGB_BLOCK) from rfl] at h
  simp only [Option.some.injEq, FormatEntry.pair.injEq] at h
  rw [hmain, ← h.1]

theorem linear_variant_selected_witness :
    KTXFile.header_format c8_hdr = .ok .FORMAT_BC1_RGB_UNORM_BLOCK :=
  (linear_variant_selected c8_hdr ⟨rfl, rfl, rfl⟩
    .FORMAT_BC1_RGB_UNORM_BLOCK .FORMAT_BC1_RGB_SRGB_BLOCK rfl).2 rfl

/-! ## Claim C9 -/

theorem byteAt_take64 (l : List Nat) (i : Nat) (hi : i < 64) :
    byteAt (l.take 64) i = byteAt l i := by
  unfold byteAt
  rw [List.getD_eq_getElem?_getD, List.getD_eq_getElem?_getD,
    List.getElem?_take, if_pos hi]

theorem u32le_eq_of_take64 (b1 b2 : List Nat) (h64 : b1.take 64 = b2.take 64) :
    ∀ off, off + 3 < 64 → u32le b1 off = u32le b2 off := by
  have e : ∀ i, i < 64 → byteAt b1 i = byteAt b2 i := by
    intro i hi
    rw [← byteAt_take64 b1 i hi, ← byteAt_take64 b2 i hi, h64]
  intro off hoff
  rw [u32le, u32le, e off (by omega), e (off + 1) (by omega),
    e (off + 2) (by omega), e (off + 3) (by omega)]

/-- The parsed header only depends on the first 64 bytes. -/
theorem parse_header_eq_of_take64 (b1 b2 : List Nat)
    (h64 : b1.take 64 = b2.take 64) :
    parse_header b1 = parse_header b2 := by
  have e32 := u32le_eq_of_take64 b1 b2 h64
  have hid : b1.take 12 = b2.take 12 := by
    have h1 : (b1.take 64).take 12 = b1.take 12 := by
      rw [List.take_take]; norm_num
    have h2 : (b2.take 64).take 12 = b2.take 12 := by
      rw [List.take_take]; norm_num
    rw [← h1, ← h2, h64]
  simp only [parse_header, KtxHeader.mk.injEq]
  exact ⟨hid, e32 12 (by omega), e32 16 (by omega), e32 20 (by omega),
    e32 24 (by omega), e32 28 (by omega), e32 32 (by omega), e32 36 (by omega),
    e32 40 (by omega), e32 44 (by omega), e32 48 (by omega), e32 52 (by omega),
    e32 56 (by omega), e32 60 (by omega)⟩

/-- C9: the decode result never depends on the content of the key-value
block: two buffers agreeing on their first 64 bytes and on everything from
offset `64 + bytesOfKeyValueData` on decode identically (to the same texture
or to the same error). -/
theorem key_value_content_irrelevant (path : String) (b1 b2 : List Nat)
    (h64 : b1.take 64 = b2.take 64)
    (hrest : b1.drop (64 + (parse_header b1).bytes_of_key_value_data) =
             b2.drop (64 + (parse_header b1).bytes_of_key_value_data)) :
    KTXFile.open_file path b1 = KTXFile.open_file path b2 := by
  have hdr := parse_header_eq_of_take64 b1 b2 h64
  have hlen : b1.length < 64 ↔ b2.length < 64 := by
    have := congrArg List.length h64
    simp only [List.length_take] at this
    omega
  rw [KTXFile.open_file, KTXFile.open_file]
  by_cases h1 : b1.length < 64
  · rw [if_pos h1, if_pos (hlen.mp h1)]
  · rw [if_neg h1, if_neg (fun h => h1 (hlen.mpr h))]
    rw [← hdr]
    show (if (parse_header b1).id ≠ Ktx10HeaderData then
            Except.error KtxError.invalidMagic
          else KTXFile.init path (parse_header b1)
            (b1.drop (64 + (parse_header b1).bytes_of_key_value_data))) =
        (if (parse_header b1).id ≠ Ktx10HeaderData then
            Except.error KtxError.invalidMagic
          else KTXFile.init path (parse_header b1)
            (b2.drop (64 + (parse_header b1).bytes_of_key_value_data)))
    rw [← hrest]

theorem key_value_content_irrelevant_witness :
    KTXFile.open_file "k.ktx" c9_buf1 = KTXFile.open_file "k.ktx" c9_buf2 :=
  key_value_content_irrelevant "k.ktx" c9_buf1 c9_buf2 (by decide) (by decide)
